import Mathlib

/-!
Verification development for the MultiCoder repository: a demonstration
pipeline in which a coordinator agent orchestrates a code-generator agent
and a code-validator agent over publish/subscribe channels.

The definitions below are shallow embeddings of the Python source:

* `src/core/agents/code_generator.py` (`CodeGenerator._generate_code`,
  `CodeGenerator.process_message`),
* `src/core/agents/code_validator.py` (`CodeValidator._validate_code`,
  `CodeValidator.process_message`),
* `src/core/agents/coordinator.py` (`Coordinator.process_message` and its
  three handlers),
* `src/core/mcp/bus.py` (`MessageBus.publish` / `_process_messages`),
* `src/utils/logging.py` (`configure_logger`).

Python dictionaries with string keys are modelled as association lists,
absent dictionary entries as `Option.none`, and Python truthiness tests on
strings (`if not s`) as `falsyS` (absent-or-empty).  Handlers are pure
functions returning the new state together with the list of messages they
publish; Python's `ast.parse` (an external standard-library parser) is
modelled as an oracle argument `parse : String → Except String PyModule`.
-/

namespace MultiCoder

/-! ### Association-list model of Python `dict` with string keys -/

/-- Lookup of a key in a (first-match) association list; `dict.get(k)`. -/
def dictGet {α : Type} : List (String × α) → String → Option α
  | [], _ => none
  | (k', v') :: rest, k => if k' = k then some v' else dictGet rest k

/-- `dict[k] = v`: replace the first binding of `k`, or append a new one. -/
def dictSet {α : Type} : List (String × α) → String → α → List (String × α)
  | [], k, v => [(k, v)]
  | (k', v') :: rest, k, v =>
      if k' = k then (k, v) :: rest else (k', v') :: dictSet rest k v

/-- `del dict[k]`: remove the first binding of `k` (no-op when absent). -/
def dictErase {α : Type} : List (String × α) → String → List (String × α)
  | [], _ => []
  | (k', v') :: rest, k => if k' = k then rest else (k', v') :: dictErase rest k

/-! ### Messages

`Message` mirrors the three-field message object `{sender, action, payload}`;
the payload is a dictionary whose known keys are modelled as optional fields
(`payload.get("request_id")` etc. — `none` stands for an absent key). -/

/-- The known payload keys of the pipeline messages, each optional as in a
Python `dict.get`. -/
structure PayloadIn where
  request_id : Option String := none
  prompt : Option String := none
  code : Option String := none
  is_valid : Option Bool := none
  issues : Option (List String) := none
deriving DecidableEq

/-- An inbound message as seen by `process_message`. -/
structure MsgIn where
  sender : Option String := none
  action : Option String := none
  payload : PayloadIn := {}
deriving DecidableEq

/-- The result object the coordinator builds: `{code, valid}` on success,
`{code, valid, issues}` on failure (`issues = none` models the absent key). -/
structure ResultObj where
  code : String
  valid : Bool
  issues : Option (List String)
deriving DecidableEq

/-- Payload of an outbound `publish` call, one constructor per message
shape the agents emit. -/
inductive OutPayload where
  | generate (request_id prompt : String)
  | validate (request_id code : String)
  | generated (request_id code : String)
  | validated (request_id : String) (is_valid : Bool) (issues : List String)
  | notify (request_id status : String) (result : ResultObj)
deriving DecidableEq

/-- An outbound message: `publish(channel, action, payload)` (the sender tag
added by `Agent.publish` is the emitting agent's fixed name). -/
structure OutMsg where
  channel : String
  action : String
  payload : OutPayload
deriving DecidableEq

/-- Python truthiness test `not x` for an optional string: true when the key
is absent or the string is empty. -/
def falsyS : Option String → Bool
  | none => true
  | some s => s = ""

/-! ### Channel names (`src/config` / agent constructors) -/

def request_channel : String := "multicoder:requests"
def generator_channel : String := "multicoder:generator"
def validator_channel : String := "multicoder:validator"
def response_channel : String := "multicoder:responses"

/-! ### Code generator (`src/core/agents/code_generator.py`)

`_generate_code` lower-cases the prompt and runs
`re.search("inverse.*cha[îi]ne", ...)`; on a match it returns the canned
string-reversal snippet, otherwise the canned `process_data` placeholder. -/

/-- Character-wise model of Python `str.lower()` covering the ASCII and
Latin-1 uppercase letters (in particular `Î ↦ î`, the only non-ASCII letter
occurring in the search pattern); other characters are left unchanged. -/
def pyLowerChar (c : Char) : Char :=
  if 'A' ≤ c ∧ c ≤ 'Z' then Char.ofNat (c.toNat + 32)
  else if 'À' ≤ c ∧ c ≤ 'Þ' ∧ c ≠ '×' then Char.ofNat (c.toNat + 32)
  else c

/-- Model of `str.lower()` on the character list of a string. -/
def pyLower (cs : List Char) : List Char := cs.map pyLowerChar

/-- `text.split('\n')` on a character list: `splitLines [] = [[]]`, and each
`'\n'` starts a new (possibly empty) line, exactly as Python `str.split`. -/
def splitLines : List Char → List (List Char)
  | [] => [[]]
  | c :: rest =>
      let r := splitLines rest
      if c = '\n' then [] :: r
      else
        match r with
        | [] => [[c]]
        | l :: ls => (c :: l) :: ls

/-- `pat` occurs at the start of `s`. -/
def listStarts (pat s : List Char) : Bool := s.take pat.length = pat

/-- `pat` occurs somewhere in `s` (model of an unanchored literal search). -/
def listContains (pat : List Char) : List Char → Bool
  | [] => listStarts pat []
  | c :: rest => listStarts pat (c :: rest) || listContains pat rest

/-- The literal `inverse` of the pattern `inverse.*cha[îi]ne`. -/
def invWord : List Char := "inverse".toList

/-- Either branch of the character class in `cha[îi]ne`. -/
def chaineAcc : List Char := "chaîne".toList

/-- The unaccented branch of `cha[îi]ne`. -/
def chainePlain : List Char := "chaine".toList

/-- The `cha[îi]ne` part of the pattern occurs in `cs`. -/
def hasChaine (cs : List Char) : Bool :=
  listContains chaineAcc cs || listContains chainePlain cs

/-- Search for `inverse.*cha[îi]ne` within one line: some occurrence of
`inverse` is followed (later in the same line) by `chaîne` or `chaine`.
(`.` in the Python pattern does not match a newline, and neither literal
contains one, so a whole-string `re.search` succeeds exactly when some line
matches; see `promptMatches`.) -/
def lineIntent : List Char → Bool
  | [] => false
  | c :: rest =>
      (listStarts invWord (c :: rest) && hasChaine ((c :: rest).drop 7)) ||
      lineIntent rest

/-- `re.search(r"inverse.*cha[îi]ne", prompt.lower()) is not None`. -/
def promptMatches (prompt : String) : Bool :=
  (splitLines (pyLower prompt.data)).any lineIntent

/-- The canned character-by-character string-reversal snippet
(`code_generator.py`, match branch). -/
def reverse_string_code : String :=
  "def reverse_string(s: str) -> str:\n    \"\"\"Reverse a string without using the slice operator.\n    \n    Args:\n        s: The input string to reverse.\n        \n    Returns:\n        The reversed string.\n    \"\"\"\n    result = \"\"\n    for char in s:\n        result = char + result\n    return result\n"

/-- The canned generic `process_data` placeholder snippet
(`code_generator.py`, fallback branch). -/
def process_data_code : String :=
  "def process_data(data):\n    \"\"\"Process the provided data.\n    \n    Args:\n        data: The input data to process.\n        \n    Returns:\n        The processed result.\n    \"\"\"\n    # TODO: Implement specific logic based on requirements\n    result = data\n    return result\n"

/-- `CodeGenerator._generate_code`. -/
def generate_code (prompt : String) : String :=
  if promptMatches prompt then reverse_string_code else process_data_code

/-- `CodeGenerator.process_message`: on action `"generate"` with truthy
`request_id` and `prompt`, publish `("generated", {request_id, code})` on the
generator channel; otherwise publish nothing.  The generator holds no state,
so its outcome is just the list of published messages. -/
def generator_process_message (_channel : String) (msg : MsgIn) : List OutMsg :=
  if msg.action = some "generate" then
    if falsyS msg.payload.request_id || falsyS msg.payload.prompt then []
    else
      let rid := msg.payload.request_id.getD ""
      let prompt := msg.payload.prompt.getD ""
      [⟨generator_channel, "generated", .generated rid (generate_code prompt)⟩]
  else []

/-! ### Code validator (`src/core/agents/code_validator.py`)

`_validate_code` parses the code with Python's `ast.parse` (modelled as the
oracle argument `parse`), then accumulates issues: line-length violations,
the wildcard-import regex, a computed-but-suppressed indentation signal, and
missing docstrings found by a breadth-first `ast.walk`. -/

/-- Python AST statements as far as the validator observes them: function
definitions and class definitions carry a name, a docstring slot
(`ast.get_docstring`) and a body; every other statement only contributes the
child statements `ast.walk` keeps walking into. -/
inductive PyStmt where
  | funcDef (name : String) (doc : Option String) (body : List PyStmt)
  | classDef (name : String) (doc : Option String) (body : List PyStmt)
  | other (children : List PyStmt)

/-- The module node produced by `ast.parse`: its own docstring slot and its
top-level statements. -/
structure PyModule where
  doc : Option String
  body : List PyStmt

/-- A single-quote character, used in the validator's issue messages. -/
def sq : String := String.singleton (Char.ofNat 39)

/-- Characters matched by `\s` in the source's regular expressions
(the ASCII whitespace class; the prompts and snippets involved contain no
exotic Unicode whitespace). -/
def isPySpace (c : Char) : Bool :=
  c = ' ' || c = '\t' || c = '\n' || c = '\r' || c = Char.ofNat 11 || c = Char.ofNat 12

/-- Child nodes `ast.walk` enqueues for a statement. -/
def childrenOf : PyStmt → List PyStmt
  | .funcDef _ _ b => b
  | .classDef _ _ b => b
  | .other ch => ch

mutual

/-- Size of one statement (termination measure of the breadth-first walk). -/
def stmtSize : PyStmt → Nat
  | .funcDef _ _ b => 1 + stmtListSize b
  | .classDef _ _ b => 1 + stmtListSize b
  | .other ch => 1 + stmtListSize ch

/-- Combined size of a list of statements. -/
def stmtListSize : List PyStmt → Nat
  | [] => 0
  | s :: rest => stmtSize s + stmtListSize rest

end

/-- Docstring issue contributed by one visited node: `ast.get_docstring`
falsy (absent or empty) on a `FunctionDef` or `ClassDef` yields a message
naming it; other nodes (including the module) contribute nothing. -/
def nodeIssue : PyStmt → List String
  | .funcDef n d _ =>
      if falsyS d then ["Function " ++ sq ++ n ++ sq ++ " is missing a docstring"] else []
  | .classDef n d _ =>
      if falsyS d then ["Class " ++ sq ++ n ++ sq ++ " is missing a docstring"] else []
  | .other _ => []

/-- Messages contributed by one breadth-first level, in queue order. -/
def levelIssues (l : List PyStmt) : List String :=
  l.foldr (fun s acc => nodeIssue s ++ acc) []

/-- The next breadth-first level: the children of the current level's nodes,
in queue order. -/
def nextLevel (l : List PyStmt) : List PyStmt :=
  l.foldr (fun s acc => childrenOf s ++ acc) []

/-- Breadth-first walk (`ast.walk` pops a FIFO queue from the left and
appends children on the right, so it visits the tree level by level in queue
order).  `fuel` is a structural-recursion bound; any `fuel` at least the
tree depth — e.g. `stmtListSize` of the roots, see `docstringIssues` —
exhausts the walk. -/
def bfsWalk (fuel : Nat) (q : List PyStmt) : List String :=
  match fuel with
  | 0 => []
  | Nat.succ k => levelIssues q ++ bfsWalk k (nextLevel q)

/-- The docstring pass of `_validate_code`: `ast.walk(tree)` yields the
module first (which contributes no message) and then walks its statements
breadth-first. -/
def docstringIssues (m : PyModule) : List String :=
  bfsWalk (stmtListSize m.body + 1) m.body

/-- Line-length pass from index `i` (0-based; messages cite `i+1`). -/
def lineLengthIssuesFrom : Nat → List (List Char) → List String
  | _, [] => []
  | i, line :: rest =>
      (if line.length > 79 then
        ["Line " ++ toString (i + 1) ++ " is too long (" ++
          toString line.length ++ " > 79 characters)"]
      else []) ++ lineLengthIssuesFrom (i + 1) rest

/-- `for i, line in enumerate(lines): if len(line) > 79: ...`. -/
def lineLengthIssues (lines : List (List Char)) : List String :=
  lineLengthIssuesFrom 0 lines

def importWord : List Char := "import".toList

/-- One anchored attempt of `^\s*import\s+\*` starting at a line start:
skip whitespace (`\s` may cross line breaks), require the literal `import`,
at least one whitespace character, then `*` as the next non-whitespace
character. -/
def wildcardAt (cs : List Char) : Bool :=
  let rest := cs.dropWhile isPySpace
  listStarts importWord rest &&
    (match rest.drop 6 with
     | [] => false
     | c :: cs2 =>
         isPySpace c &&
           (match cs2.dropWhile isPySpace with
            | c' :: _ => c' = '*'
            | [] => false))

/-- The suffixes of `cs` that begin just after a newline (the `^` anchor
positions of `re.MULTILINE` other than the start of the string). -/
def lineStartsList : List Char → List (List Char)
  | [] => []
  | c :: rest =>
      if c = '\n' then rest :: lineStartsList rest else lineStartsList rest

/-- `re.search(r"^\s*import\s+\*", code, re.MULTILINE) is not None`. -/
def wildcardSearch (cs : List Char) : Bool :=
  wildcardAt cs || (lineStartsList cs).any wildcardAt

/-- The indentation-consistency signal: the set (modelled as a
duplicate-free list) of distinct positive indentation widths of lines that
are non-blank and start with whitespace.  The source computes this set but
the corresponding issue is commented out, so it never reaches the output. -/
def indentSizes (lines : List (List Char)) : List Nat :=
  lines.foldl
    (fun acc line =>
      if line.any (fun c => !isPySpace c) &&
          (match line with | c :: _ => isPySpace c | [] => false) then
        let ind := line.length - (line.dropWhile isPySpace).length
        if ind > 0 && !(acc.contains ind) then acc ++ [ind] else acc
      else acc)
    []

/-- `CodeValidator._validate_code`.  `parseResult` is the outcome of
`ast.parse(code)`: `Except.error e` models a `SyntaxError` with message `e`,
`Except.ok tree` a successful parse. -/
def validate_code (parseResult : Except String PyModule) (code : String) :
    Bool × List String :=
  match parseResult with
  | .error e => (false, ["Syntax error: " ++ e])
  | .ok tree =>
      let lines := splitLines code.data
      let issues := lineLengthIssues lines
      let issues := issues ++
        (if wildcardSearch code.data then
          ["Wildcard imports (import *) are discouraged"]
        else [])
      -- indentation consistency is computed but its issue is commented out
      let _indent := indentSizes lines
      let issues := issues ++ docstringIssues tree
      (decide (issues.length = 0), issues)

/-- `CodeValidator.process_message`: on action `"validate"` with truthy
`request_id` and `code`, publish the validation verdict; otherwise nothing.
The validator holds no state. -/
def validator_process_message (parse : String → Except String PyModule)
    (_channel : String) (msg : MsgIn) : List OutMsg :=
  if msg.action = some "validate" then
    if falsyS msg.payload.request_id || falsyS msg.payload.code then []
    else
      let rid := msg.payload.request_id.getD ""
      let code := msg.payload.code.getD ""
      let r := validate_code (parse code) code
      [⟨validator_channel, "validated", .validated rid r.1 r.2⟩]
  else []

/-! ### Coordinator (`src/core/agents/coordinator.py`)

The coordinator owns the only mutable state: `pending_requests`, a dict from
request id to a pending record.  Each handler returns the updated dict
together with the messages it publishes. -/

/-- One `pending_requests` record.  The Python dict starts as
`{"prompt", "status", "result": None}`; the `"code"` key is only added by
`_handle_generated_code`, hence `code : Option String`. -/
structure PendingReq where
  prompt : String
  status : String
  code : Option String
  result : Option ResultObj
deriving DecidableEq

/-- The coordinator's `pending_requests` dictionary. -/
def CoordState : Type := List (String × PendingReq)

/-- `Coordinator._handle_new_request`: requires truthy `request_id` and
`prompt`, stores a fresh record with status `"processing"`, and forwards a
`generate` message to the generator channel. -/
def handle_new_request (st : CoordState) (payload : PayloadIn) :
    CoordState × List OutMsg :=
  if falsyS payload.request_id || falsyS payload.prompt then (st, [])
  else
    let rid := payload.request_id.getD ""
    let prompt := payload.prompt.getD ""
    (dictSet st rid ⟨prompt, "processing", none, none⟩,
      [⟨generator_channel, "generate", .generate rid prompt⟩])

/-- `Coordinator._handle_generated_code`: requires truthy `request_id` and
`code`; for a known id, stores the code, moves the record to `"validating"`,
and forwards a `validate` message; for an unknown id it only logs a warning
(no publish, no state change). -/
def handle_generated_code (st : CoordState) (payload : PayloadIn) :
    CoordState × List OutMsg :=
  if falsyS payload.request_id || falsyS payload.code then (st, [])
  else
    let rid := payload.request_id.getD ""
    let code := payload.code.getD ""
    match dictGet st rid with
    | some req =>
        (dictSet st rid { req with code := some code, status := "validating" },
          [⟨validator_channel, "validate", .validate rid code⟩])
    | none => (st, [])

/-- `Coordinator._handle_validated_code`: requires a truthy `request_id`
(`is_valid` defaults to false, `issues` to `[]`); for a known id, builds the
final status/result, publishes one `notify` on the responses channel, and
deletes the record; for an unknown id it only logs a warning. -/
def handle_validated_code (st : CoordState) (payload : PayloadIn) :
    CoordState × List OutMsg :=
  let is_valid := payload.is_valid.getD false
  let issues := payload.issues.getD []
  if falsyS payload.request_id then (st, [])
  else
    let rid := payload.request_id.getD ""
    match dictGet st rid with
    | some req =>
        let code := (req.code).getD ""
        let status := if is_valid then "completed" else "failed"
        let result : ResultObj :=
          if is_valid then ⟨code, true, none⟩ else ⟨code, false, some issues⟩
        let st' := dictSet st rid { req with status := status, result := some result }
        (dictErase st' rid,
          [⟨response_channel, "notify", .notify rid status result⟩])
    | none => (st, [])

/-- `Coordinator.process_message`: dispatch on `(channel, action)`. -/
def coordinator_process_message (st : CoordState) (channel : String)
    (msg : MsgIn) : CoordState × List OutMsg :=
  let action := msg.action
  let payload := msg.payload
  if channel = request_channel then
    if action = some "process" then handle_new_request st payload else (st, [])
  else if channel = generator_channel then
    if action = some "generated" then handle_generated_code st payload else (st, [])
  else if channel = validator_channel then
    if action = some "validated" then handle_validated_code st payload else (st, [])
  else (st, [])

/-- Deliver a sequence of `(channel, message)` pairs to the coordinator,
collecting all published messages in order. -/
def coordinator_run (st : CoordState) : List (String × MsgIn) →
    CoordState × List OutMsg
  | [] => (st, [])
  | (ch, m) :: rest =>
      let r := coordinator_process_message st ch m
      let r' := coordinator_run r.1 rest
      (r'.1, r.2 ++ r'.2)

/-- The `(requests, "process")` message submitted by a client. -/
def processMsg (rid prompt : String) : MsgIn :=
  { sender := some "mcp_client", action := some "process",
    payload := { request_id := some rid, prompt := some prompt } }

/-- The `(generator, "generated")` reply of the generator. -/
def generatedMsg (rid code : String) : MsgIn :=
  { sender := some "code_generator", action := some "generated",
    payload := { request_id := some rid, code := some code } }

/-- The `(validator, "validated")` reply of the validator. -/
def validatedMsg (rid : String) (is_valid : Bool) (issues : List String) : MsgIn :=
  { sender := some "code_validator", action := some "validated",
    payload := { request_id := some rid, is_valid := some is_valid,
                 issues := some issues } }

/-! ### In-process message bus (`src/core/mcp/bus.py`)

`publish` wraps `{channel, data: {sender, action, payload}}` and enqueues it
on a FIFO queue; the background loop `_process_messages` dequeues strictly
in order and invokes every current subscriber of the message's channel once
with `(channel, data)`.  Callbacks are modelled by identifiers (`Nat`); the
subscription table `channel → set of callbacks` is a dict whose values are
duplicate-free lists (Python stores a `set`); an invocation of callback `c`
is recorded as the event `(c, channel, data)`.  `drain` is the cumulative
effect of the delivery loop on a queue while the subscription table is
unchanged and the bus keeps running. -/

/-- The `data` part of a bus message: `{sender, action, payload}` with an
opaque string-to-string payload dict. -/
structure BusData where
  sender : String
  action : String
  payload : List (String × String)
deriving DecidableEq

/-- One entry of the bus queue: `{"channel": channel, "data": data}`. -/
structure QueuedMsg where
  channel : String
  data : BusData
deriving DecidableEq

/-- The subscription table: channel name to subscriber callbacks. -/
def SubTable : Type := List (String × List Nat)

/-- Current subscribers of a channel (empty when the channel is absent —
`if channel in self._subscriptions`). -/
def subsOf (subs : SubTable) (channel : String) : List Nat :=
  (dictGet subs channel).getD []

/-- `MessageBus.publish`: build the message and append it to the queue
(fire-and-forget). -/
def bus_publish (queue : List QueuedMsg) (channel sender action : String)
    (payload : List (String × String)) : List QueuedMsg :=
  queue ++ [⟨channel, ⟨sender, action, payload⟩⟩]

/-- Delivery of one dequeued message: one invocation `(c, channel, data)`
for every current subscriber `c` of its channel. -/
def deliverOne (subs : SubTable) (m : QueuedMsg) : List (Nat × String × BusData) :=
  (subsOf subs m.channel).map (fun c => (c, m.channel, m.data))

/-- Cumulative effect of `_process_messages` on a queue: messages are
dequeued strictly in FIFO order and each is fanned out to the subscribers of
its channel. -/
def drain (subs : SubTable) : List QueuedMsg → List (Nat × String × BusData)
  | [] => []
  | m :: rest => deliverOne subs m ++ drain subs rest

/-! ### Logging helper (`src/utils/logging.py`)

`configure_logger` resolves the level name, fetches (or creates) the
process-wide logger registered under `logger_name`, sets its level, and
attaches a single stdout handler only when the logger has none.  The global
`logging` registry is modelled as a dict from name to logger state; a
handler is recorded by its format string. -/

/-- The mutable state of one named logger: its level and the format strings
of its attached handlers. -/
structure LoggerState where
  level : Nat
  handlers : List String
deriving DecidableEq

/-- The process-wide logger registry (`logging.getLogger` table). -/
def LogRegistry : Type := List (String × LoggerState)

/-- `getattr(logging, level.upper(), logging.INFO)`: the numeric levels of
the `logging` module, defaulting to `INFO` (20) for unknown names.  Case
normalisation is modelled for the documented level names. -/
def levelNum (level : String) : Nat :=
  if level = "DEBUG" || level = "debug" then 10
  else if level = "INFO" || level = "info" then 20
  else if level = "WARNING" || level = "warning" then 30
  else if level = "ERROR" || level = "error" then 40
  else if level = "CRITICAL" || level = "critical" then 50
  else 20

/-- The default format string of `configure_logger`. -/
def default_log_format : String :=
  "%(asctime)s - %(name)s - %(levelname)s - %(message)s"

/-- `configure_logger(logger_name, level, log_format)` acting on the global
registry: set the logger's level and attach one stdout handler if and only
if it has none. -/
def configure_logger (logger_name level : String) (log_format : Option String)
    (reg : LogRegistry) : LogRegistry :=
  let numeric_level := levelNum level
  let logger := (dictGet reg logger_name).getD ⟨0, []⟩
  let logger := { logger with level := numeric_level }
  let fmt := log_format.getD default_log_format
  let logger :=
    if logger.handlers.isEmpty then { logger with handlers := [fmt] } else logger
  dictSet reg logger_name logger

/-! ### Spec-side predicate for the wildcard-import claim

For comparing the validator's regular-expression check against the spec's
words, `specWildcardImportLine` follows the specification text: a line
which, ignoring leading whitespace, begins with a wildcard import statement.
Python's wildcard import statement form is `from <module> import *`. -/

/-- Helper of `splitWords`: `acc` is the current word, reversed. -/
def splitWordsAux : List Char → List Char → List (List Char)
  | [], acc => if acc.isEmpty then [] else [acc.reverse]
  | c :: rest, acc =>
      if isPySpace c then
        (if acc.isEmpty then [] else [acc.reverse]) ++ splitWordsAux rest []
      else splitWordsAux rest (c :: acc)

/-- Whitespace-separated words of a line. -/
def splitWords (line : List Char) : List (List Char) :=
  splitWordsAux line []

/-- Modelled from the spec's words: the line, ignoring surrounding
whitespace, consists of the tokens `from <module> import *`. -/
def specWildcardImportLine (line : List Char) : Bool :=
  match splitWords line with
  | [f, m, i, st] =>
      f = "from".toList && !(m.isEmpty) && i = "import".toList && st = ['*']
  | _ => false

/-- Modelled from the spec's words: some line of the code, ignoring leading
whitespace, begins with a wildcard import statement. -/
def specAnyWildcardImportLine (code : String) : Bool :=
  (splitLines code.data).any specWildcardImportLine

/-! ## Theorems

Helper lemmas first, then one theorem per claim (with witnesses and
counterexamples as separate closed corollaries). -/

theorem dictGet_dictSet_self {α : Type} (l : List (String × α)) (k : String) (v : α) :
    dictGet (dictSet l k v) k = some v := by
  induction l with
  | nil => simp [dictSet, dictGet]
  | cons hd tl ih =>
      obtain ⟨k', v'⟩ := hd
      by_cases h : k' = k
      · simp [dictSet, dictGet, h]
      · simp [dictSet, dictGet, h, ih]

theorem dictErase_dictSet {α : Type} (l : List (String × α)) (k : String) (v : α) :
    dictErase (dictSet l k v) k = dictErase l k := by
  induction l with
  | nil => simp [dictSet, dictErase]
  | cons hd tl ih =>
      obtain ⟨k', v'⟩ := hd
      by_cases h : k' = k
      · simp [dictSet, dictErase, h]
      · simp [dictSet, dictErase, h, ih]

theorem dictErase_of_get_none {α : Type} (l : List (String × α)) (k : String)
    (h : dictGet l k = none) : dictErase l k = l := by
  induction l with
  | nil => simp [dictErase]
  | cons hd tl ih =>
      obtain ⟨k', v'⟩ := hd
      by_cases hk : k' = k
      · simp [dictGet, hk] at h
      · simp [dictGet, hk] at h
        simp [dictErase, hk, ih h]

theorem dictSet_dictSet {α : Type} (l : List (String × α)) (k : String) (v v' : α) :
    dictSet (dictSet l k v) k v' = dictSet l k v' := by
  induction l with
  | nil => simp [dictSet]
  | cons hd tl ih =>
      obtain ⟨k', w⟩ := hd
      by_cases h : k' = k
      · simp [dictSet, h]
      · simp [dictSet, h, ih]

/-- **C3** (Validator verdict equivalence): for every parse outcome and
every code string, `_validate_code` returns `is_valid = true` exactly when
its returned issues list is empty; hence the validity flag of every
`validated` message equals the emptiness of the accompanying issues list. -/
theorem validator_verdict_iff_issues_empty
    (parseResult : Except String PyModule) (code : String) :
    (validate_code parseResult code).1 = true ↔
      (validate_code parseResult code).2 = [] := by
  cases parseResult with
  | error e => simp [validate_code]
  | ok tree => simp [validate_code, List.length_eq_zero]

theorem validator_verdict_iff_issues_empty_witness :
    (validate_code (Except.error "invalid syntax") "def f(:").1 = true ↔
      (validate_code (Except.error "invalid syntax") "def f(:").2 = [] :=
  validator_verdict_iff_issues_empty (Except.error "invalid syntax") "def f(:"

/-- **C4** (Validator syntax gate): when `ast.parse` fails, `_validate_code`
returns `is_valid = false` together with exactly one issue describing the
syntax error; no line-length, wildcard-import, indentation or docstring
check contributes anything for that input. -/
theorem validator_syntax_gate (e : String) (code : String) :
    validate_code (Except.error e) code = (false, ["Syntax error: " ++ e]) ∧
    (validate_code (Except.error e) code).2.length = 1 := by
  constructor <;> simp [validate_code]

theorem validator_syntax_gate_witness :
    validate_code (Except.error "invalid syntax") "def f(:" =
      (false, ["Syntax error: invalid syntax"]) ∧
    (validate_code (Except.error "invalid syntax") "def f(:").2.length = 1 :=
  validator_syntax_gate "invalid syntax" "def f(:"

/-- **C10** (No self-trigger): a message whose action is not `"generate"`
(resp. `"validate"`) makes the generator (resp. validator) publish nothing;
neither agent holds any state.  In particular each agent ignores its own
`"generated"`/`"validated"` reply arriving back on the single shared channel
it both subscribes and publishes to, so no message loop arises. -/
theorem agents_ignore_other_actions (parse : String → Except String PyModule)
    (ch : String) (msg : MsgIn) :
    (msg.action ≠ some "generate" → generator_process_message ch msg = []) ∧
    (msg.action ≠ some "validate" → validator_process_message parse ch msg = []) := by
  constructor
  · intro h
    simp [generator_process_message, h]
  · intro h
    simp [validator_process_message, h]

theorem agents_ignore_other_actions_witness :
    generator_process_message generator_channel
      { action := some "generated",
        payload := { request_id := some "r1", code := some "x" } } = [] ∧
    validator_process_message (fun _ => Except.error "unused") validator_channel
      { action := some "validated",
        payload := { request_id := some "r1", is_valid := some true } } = [] :=
  ⟨(agents_ignore_other_actions (fun _ => Except.error "unused") generator_channel _).1
      (by decide),
   (agents_ignore_other_actions (fun _ => Except.error "unused") validator_channel _).2
      (by decide)⟩

/-- **C9** (Implicit falsy-field rejection): every required-field check in
the handlers is a Python truthiness test (`if not x`), so a `process`,
`generate`, `validate` or `generated` message whose required field is
present but equal to `""` is dropped exactly like one with the field absent:
nothing is published and no state changes. -/
theorem falsy_field_rejection (st : CoordState) (p : PayloadIn)
    (parse : String → Except String PyModule) (ch : String) :
    ((p.request_id = some "" ∨ p.prompt = some "") →
      coordinator_process_message st request_channel
        { action := some "process", payload := p } = (st, []) ∧
      generator_process_message ch { action := some "generate", payload := p } = []) ∧
    ((p.request_id = some "" ∨ p.code = some "") →
      coordinator_process_message st generator_channel
        { action := some "generated", payload := p } = (st, []) ∧
      validator_process_message parse ch
        { action := some "validate", payload := p } = []) := by
  have hfal : ∀ o : Option String, o = some "" → falsyS o = true := by
    rintro o rfl
    simp [falsyS]
  constructor
  · rintro (h | h)
    · constructor
      · simp [coordinator_process_message, handle_new_request, hfal _ h]
      · simp [generator_process_message, hfal _ h]
    · constructor
      · simp [coordinator_process_message, handle_new_request, hfal _ h]
      · simp [generator_process_message, hfal _ h]
  · rintro (h | h)
    · constructor
      · simp [coordinator_process_message, handle_generated_code, hfal _ h,
          request_channel, generator_channel]
      · simp [validator_process_message, hfal _ h]
    · constructor
      · simp [coordinator_process_message, handle_generated_code, hfal _ h,
          request_channel, generator_channel]
      · simp [validator_process_message, hfal _ h]

theorem falsy_field_rejection_witness :
    (coordinator_process_message [] request_channel
        { action := some "process",
          payload := { request_id := some "", prompt := some "p", code := some "c" } } =
        ([], []) ∧
      generator_process_message "multicoder:generator"
        { action := some "generate",
          payload := { request_id := some "", prompt := some "p", code := some "c" } } = []) ∧
    (coordinator_process_message [] generator_channel
        { action := some "generated",
          payload := { request_id := some "", prompt := some "p", code := some "c" } } =
        ([], []) ∧
      validator_process_message (fun _ => Except.error "unused") "multicoder:validator"
        { action := some "validate",
          payload := { request_id := some "", prompt := some "p", code := some "c" } } = []) :=
  ⟨(falsy_field_rejection [] _ (fun _ => Except.error "unused") "multicoder:generator").1
      (Or.inl rfl),
   (falsy_field_rejection [] _ (fun _ => Except.error "unused") "multicoder:validator").2
      (Or.inl rfl)⟩

/-- **C5** (Unknown-id tolerance and atomicity): a `generated` message on
the generator channel, or a `validated` message on the validator channel,
whose `request_id` is not a key of `pending_requests` makes the coordinator
publish nothing and leaves the mapping exactly unchanged (the handlers are
total functions, so no exception can be raised; the source only logs a
warning). -/
theorem unknown_id_tolerance (st : CoordState) (mg mv : MsgIn)
    (hg : mg.action = some "generated") (hv : mv.action = some "validated")
    (hgid : ∀ rid, mg.payload.request_id = some rid → dictGet st rid = none)
    (hvid : ∀ rid, mv.payload.request_id = some rid → dictGet st rid = none) :
    coordinator_process_message st generator_channel mg = (st, []) ∧
    coordinator_process_message st validator_channel mv = (st, []) := by
  constructor
  · simp only [coordinator_process_message, hg, request_channel, generator_channel,
      if_true]
    unfold handle_generated_code
    cases hrid : mg.payload.request_id with
    | none => simp [falsyS]
    | some rid =>
        by_cases he : rid = ""
        · simp [falsyS, he]
        · have hnone : dictGet st rid = none := hgid rid hrid
          cases hfc : falsyS mg.payload.code with
          | true => simp [falsyS, he, hfc]
          | false => simp [falsyS, he, hfc, hnone]
  · simp only [coordinator_process_message, hv, request_channel, generator_channel,
      validator_channel, if_true]
    unfold handle_validated_code
    cases hrid : mv.payload.request_id with
    | none => simp [falsyS]
    | some rid =>
        by_cases he : rid = ""
        · simp [falsyS, he]
        · have hnone : dictGet st rid = none := hvid rid hrid
          simp [falsyS, he, hnone]

theorem unknown_id_tolerance_witness :
    coordinator_process_message [] generator_channel
      (generatedMsg "nonexistent" "def f():\n    pass") = ([], []) ∧
    coordinator_process_message [] validator_channel
      (validatedMsg "nonexistent" true []) = ([], []) :=
  unknown_id_tolerance [] _ _ rfl rfl
    (by intro rid h; cases h; rfl) (by intro rid h; cases h; rfl)

/-- **C8** (Idempotent logger setup): starting from a registry with no
logger for `logger_name`, the first `configure_logger` call attaches exactly
one output handler; any further call for the same name — with any level or
format — still leaves exactly one handler, and a repeat call with the same
arguments leaves the whole registry unchanged, so each logged message is
written exactly once. -/
theorem configure_logger_idempotent (logger_name level : String)
    (fmt : Option String) (level2 : String) (fmt2 : Option String)
    (reg : LogRegistry) (h : dictGet reg logger_name = none) :
    (dictGet (configure_logger logger_name level fmt reg) logger_name).map
        (fun l => l.handlers.length) = some 1 ∧
    (dictGet (configure_logger logger_name level2 fmt2
        (configure_logger logger_name level fmt reg)) logger_name).map
        (fun l => l.handlers.length) = some 1 ∧
    configure_logger logger_name level fmt
        (configure_logger logger_name level fmt reg) =
      configure_logger logger_name level fmt reg := by
  refine ⟨?_, ?_, ?_⟩
  · simp [configure_logger, h, dictGet_dictSet_self]
  · simp [configure_logger, h, dictGet_dictSet_self]
  · simp [configure_logger, h, dictGet_dictSet_self, dictSet_dictSet]

theorem configure_logger_idempotent_witness :
    (dictGet (configure_logger "mcp.bus" "INFO" none []) "mcp.bus").map
        (fun l => l.handlers.length) = some 1 ∧
    (dictGet (configure_logger "mcp.bus" "DEBUG" none
        (configure_logger "mcp.bus" "INFO" none [])) "mcp.bus").map
        (fun l => l.handlers.length) = some 1 ∧
    configure_logger "mcp.bus" "INFO" none
        (configure_logger "mcp.bus" "INFO" none []) =
      configure_logger "mcp.bus" "INFO" none [] :=
  configure_logger_idempotent "mcp.bus" "INFO" none "DEBUG" none [] rfl

/-- **C1** (Coordinator state machine): starting from a state with no
pending record for `rid` (and non-empty `rid`, `prompt`, `code`, i.e. the
payload fields are truthy), delivering `(requests, "process")`, then
`(generator, "generated")`, then `(validator, "validated", is_valid: true,
issues: [])` publishes, besides the intermediate `generate` and `validate`
forwards, exactly one `(responses, "notify", status "completed",
result {code, valid: true})`, and the final state equals the initial one —
the record for `rid` is deleted before the handler returns.  The same
sequence with `is_valid: false, issues: ["x"]` yields status `"failed"` and
result `{code, valid: false, issues: ["x"]}`, again deleting the record. -/
theorem coordinator_state_machine (st : CoordState) (rid prompt code : String)
    (h : dictGet st rid = none) (hrid : rid ≠ "") (hp : prompt ≠ "")
    (hc : code ≠ "") :
    coordinator_run st
        [(request_channel, processMsg rid prompt),
         (generator_channel, generatedMsg rid code),
         (validator_channel, validatedMsg rid true [])] =
      (st, [⟨generator_channel, "generate", .generate rid prompt⟩,
            ⟨validator_channel, "validate", .validate rid code⟩,
            ⟨response_channel, "notify", .notify rid "completed" ⟨code, true, none⟩⟩]) ∧
    coordinator_run st
        [(request_channel, processMsg rid prompt),
         (generator_channel, generatedMsg rid code),
         (validator_channel, validatedMsg rid false ["x"])] =
      (st, [⟨generator_channel, "generate", .generate rid prompt⟩,
            ⟨validator_channel, "validate", .validate rid code⟩,
            ⟨response_channel, "notify",
              .notify rid "failed" ⟨code, false, some ["x"]⟩⟩]) := by
  constructor <;>
    simp [coordinator_run, coordinator_process_message, processMsg, generatedMsg,
      validatedMsg, handle_new_request, handle_generated_code, handle_validated_code,
      falsyS, hrid, hp, hc, request_channel, generator_channel, validator_channel,
      response_channel, dictGet_dictSet_self, dictSet_dictSet, dictErase_dictSet,
      dictErase_of_get_none st rid h]

theorem coordinator_state_machine_witness :
    coordinator_run []
        [(request_channel, processMsg "req-1" "Inverse une chaîne"),
         (generator_channel, generatedMsg "req-1" "def f():\n    pass"),
         (validator_channel, validatedMsg "req-1" true [])] =
      ([], [⟨generator_channel, "generate", .generate "req-1" "Inverse une chaîne"⟩,
            ⟨validator_channel, "validate", .validate "req-1" "def f():\n    pass"⟩,
            ⟨response_channel, "notify",
              .notify "req-1" "completed" ⟨"def f():\n    pass", true, none⟩⟩]) ∧
    coordinator_run []
        [(request_channel, processMsg "req-1" "Inverse une chaîne"),
         (generator_channel, generatedMsg "req-1" "def f():\n    pass"),
         (validator_channel, validatedMsg "req-1" false ["x"])] =
      ([], [⟨generator_channel, "generate", .generate "req-1" "Inverse une chaîne"⟩,
            ⟨validator_channel, "validate", .validate "req-1" "def f():\n    pass"⟩,
            ⟨response_channel, "notify",
              .notify "req-1" "failed" ⟨"def f():\n    pass", false, some ["x"]⟩⟩]) :=
  coordinator_state_machine [] "req-1" "Inverse une chaîne" "def f():\n    pass" rfl
    (by decide) (by decide) (by decide)

theorem drain_append (subs : SubTable) (q1 q2 : List QueuedMsg) :
    drain subs (q1 ++ q2) = drain subs q1 ++ drain subs q2 := by
  induction q1 with
  | nil => simp [drain]
  | cons m rest ih => simp [drain, ih]

theorem filter_fst_map (l : List Nat) (c : Nat) (ch : String) (d : BusData) :
    (l.map (fun k => (k, ch, d))).filter (fun e => e.1 == c) =
      (l.filter (fun k => k == c)).map (fun k => (k, ch, d)) := by
  induction l with
  | nil => simp
  | cons a t ih =>
      by_cases hac : a = c
      · simp [List.filter_cons, hac, ih]
      · simp [List.filter_cons, hac, ih]

theorem filter_eq_singleton_of_nodup (l : List Nat) (c : Nat) (h : l.Nodup)
    (hc : c ∈ l) : l.filter (fun k => k == c) = [c] := by
  induction l with
  | nil => cases hc
  | cons a t ih =>
      obtain ⟨ha, ht⟩ := List.nodup_cons.mp h
      by_cases hac : a = c
      · subst hac
        have : t.filter (fun k => k == a) = [] :=
          List.filter_eq_nil_iff.mpr (fun b hb => by
            simp only [beq_iff_eq, Bool.not_eq_true, decide_eq_false_iff_not]
            intro hba
            exact ha (hba ▸ hb))
        simp [List.filter_cons, this]
      · have hct : c ∈ t := by
          rcases List.mem_cons.mp hc with h' | h'
          · exact absurd h'.symm hac
          · exact h'
        simp [List.filter_cons, hac, ih ht hct]

theorem filter_eq_nil_of_not_mem (l : List Nat) (c : Nat) (hc : c ∉ l) :
    l.filter (fun k => k == c) = [] :=
  List.filter_eq_nil_iff.mpr (fun b hb => by
    simp only [beq_iff_eq, Bool.not_eq_true, decide_eq_false_iff_not]
    intro hbc
    exact hc (hbc ▸ hb))

/-- **C7** (Bus round-trip delivery): with the subscription table unchanged
between publish and delivery and the bus draining its queue, publishing a
message appends, after the deliveries of all earlier queued messages (FIFO
per channel), exactly the fan-out of the new message; in that fan-out every
callback subscribed to the channel at publish time is invoked exactly once
with `(channel, data)` (the Python subscriber set is duplicate-free, whence
the `Nodup` hypothesis), and a callback not subscribed to the channel is
never invoked for the message. -/
theorem bus_round_trip (subs : SubTable) (q : List QueuedMsg)
    (channel sender action : String) (payload : List (String × String)) (c : Nat)
    (hnd : (subsOf subs channel).Nodup) :
    drain subs (bus_publish q channel sender action payload) =
      drain subs q ++ deliverOne subs ⟨channel, ⟨sender, action, payload⟩⟩ ∧
    (c ∈ subsOf subs channel →
      (deliverOne subs ⟨channel, ⟨sender, action, payload⟩⟩).filter
          (fun e => e.1 == c) =
        [(c, channel, ⟨sender, action, payload⟩)]) ∧
    (c ∉ subsOf subs channel →
      (deliverOne subs ⟨channel, ⟨sender, action, payload⟩⟩).filter
          (fun e => e.1 == c) = []) := by
  refine ⟨?_, ?_, ?_⟩
  · unfold bus_publish
    rw [drain_append]
    simp [drain]
  · intro hc
    unfold deliverOne
    rw [filter_fst_map, filter_eq_singleton_of_nodup _ _ hnd hc]
    simp
  · intro hc
    unfold deliverOne
    rw [filter_fst_map, filter_eq_nil_of_not_mem _ _ hc]
    simp

theorem bus_round_trip_witness :
    (drain [("multicoder:responses", [0, 1])]
        (bus_publish [] "multicoder:responses" "coordinator" "notify" []) =
      drain [("multicoder:responses", [0, 1])] [] ++
        deliverOne [("multicoder:responses", [0, 1])]
          ⟨"multicoder:responses", ⟨"coordinator", "notify", []⟩⟩ ∧
      (deliverOne [("multicoder:responses", [0, 1])]
          ⟨"multicoder:responses", ⟨"coordinator", "notify", []⟩⟩).filter
          (fun e => e.1 == 0) =
        [(0, "multicoder:responses", ⟨"coordinator", "notify", []⟩)]) ∧
    (deliverOne [("multicoder:responses", [0, 1])]
        ⟨"multicoder:responses", ⟨"coordinator", "notify", []⟩⟩).filter
        (fun e => e.1 == 5) = [] := by
  have h0 := bus_round_trip [("multicoder:responses", [0, 1])] []
    "multicoder:responses" "coordinator" "notify" [] 0 (by decide)
  have h5 := bus_round_trip [("multicoder:responses", [0, 1])] []
    "multicoder:responses" "coordinator" "notify" [] 5 (by decide)
  exact ⟨⟨h0.1, h0.2.1 (by decide)⟩, h5.2.2 (by decide)⟩

theorem listStarts_iff (pat s : List Char) :
    listStarts pat s = true ↔ ∃ t, s = pat ++ t := by
  unfold listStarts
  constructor
  · intro h
    refine ⟨s.drop pat.length, ?_⟩
    conv_lhs => rw [← List.take_append_drop pat.length s]
    rw [of_decide_eq_true h]
  · rintro ⟨t, rfl⟩
    simp [List.take_left]

theorem listContains_iff (pat s : List Char) :
    listContains pat s = true ↔ ∃ u v, s = u ++ pat ++ v := by
  induction s with
  | nil =>
      simp only [listContains, listStarts_iff]
      constructor
      · rintro ⟨t, ht⟩
        exact ⟨[], t, ht⟩
      · rintro ⟨u, v, huv⟩
        rcases List.append_eq_nil.mp (List.append_eq_nil.mp huv.symm).1 with ⟨_, h2⟩
        exact ⟨v, by simp_all⟩
  | cons c rest ih =>
      simp only [listContains, Bool.or_eq_true]
      constructor
      · rintro (h | h)
        · obtain ⟨t, ht⟩ := (listStarts_iff pat (c :: rest)).mp h
          exact ⟨[], t, by simpa using ht⟩
        · obtain ⟨u, v, huv⟩ := ih.mp h
          exact ⟨c :: u, v, by simp [huv]⟩
      · rintro ⟨u, v, huv⟩
        cases u with
        | nil =>
            exact Or.inl ((listStarts_iff pat (c :: rest)).mpr ⟨v, by simpa using huv⟩)
        | cons u0 us =>
            simp only [List.cons_append, List.cons.injEq] at huv
            exact Or.inr (ih.mpr ⟨us, v, by simp [huv.2]⟩)

theorem lineIntent_iff (cs : List Char) :
    lineIntent cs = true ↔
      ∃ pre mid w suf, (w = chaineAcc ∨ w = chainePlain) ∧
        cs = pre ++ invWord ++ mid ++ w ++ suf := by
  have hinvlen : invWord.length = 7 := by decide
  induction cs with
  | nil =>
      simp only [lineIntent]
      constructor
      · intro h
        exact absurd h (by decide)
      · rintro ⟨pre, mid, w, suf, hw, heq⟩
        exfalso
        have h1 := List.append_eq_nil.mp heq.symm
        have h2 := List.append_eq_nil.mp h1.1
        have h3 := List.append_eq_nil.mp h2.1
        have h4 := List.append_eq_nil.mp h3.1
        exact absurd h4.2 (by decide)
  | cons c rest ih =>
      simp only [lineIntent, Bool.or_eq_true, Bool.and_eq_true]
      constructor
      · rintro (⟨hst, hch⟩ | h)
        · obtain ⟨t, ht⟩ := (listStarts_iff invWord (c :: rest)).mp hst
          have hdrop : (c :: rest).drop 7 = t := by
            rw [ht, ← hinvlen, List.drop_left]
          rw [hdrop] at hch
          have hor : listContains chaineAcc t = true ∨
              listContains chainePlain t = true := by
            simpa [hasChaine, Bool.or_eq_true] using hch
          rcases hor with h' | h'
          · obtain ⟨u, v, huv⟩ := (listContains_iff chaineAcc t).mp h'
            exact ⟨[], u, chaineAcc, v, Or.inl rfl,
              by simp [ht, huv, List.append_assoc]⟩
          · obtain ⟨u, v, huv⟩ := (listContains_iff chainePlain t).mp h'
            exact ⟨[], u, chainePlain, v, Or.inr rfl,
              by simp [ht, huv, List.append_assoc]⟩
        · obtain ⟨pre, mid, w, suf, hw, heq⟩ := ih.mp h
          exact ⟨c :: pre, mid, w, suf, hw, by simp [heq]⟩
      · rintro ⟨pre, mid, w, suf, hw, heq⟩
        cases pre with
        | nil =>
            left
            simp only [List.nil_append] at heq
            have heq' : c :: rest = invWord ++ (mid ++ (w ++ suf)) := by
              simp [heq, List.append_assoc]
            have hst : listStarts invWord (c :: rest) = true :=
              (listStarts_iff invWord (c :: rest)).mpr ⟨mid ++ (w ++ suf), heq'⟩
            refine ⟨hst, ?_⟩
            have hdrop : (c :: rest).drop 7 = mid ++ (w ++ suf) := by
              rw [heq', ← hinvlen, List.drop_left]
            rw [hdrop]
            have hcont : listContains w (mid ++ (w ++ suf)) = true :=
              (listContains_iff w _).mpr ⟨mid, suf, by simp [List.append_assoc]⟩
            rcases hw with rfl | rfl
            · simp [hasChaine, hcont]
            · simp [hasChaine, hcont]
        | cons p ps =>
            right
            simp only [List.cons_append, List.cons.injEq] at heq
            exact ih.mpr ⟨ps, mid, w, suf, hw, heq.2⟩

/-- **C2** (Generator pattern match): `_generate_code` returns the canned
character-by-character string-reversal function exactly when the lower-cased
prompt contains, within one line, the word `inverse` followed eventually by
`chaîne` or `chaine` — the regular expression `inverse.*cha[îi]ne` applied
to `prompt.lower()`, i.e. the reversal-of-a-string intent in the supported
(French) vocabulary with either spelling of `chaîne`, in any letter casing.
Every other prompt yields the canned generic `process_data` placeholder. -/
theorem generator_pattern_match (p : String) :
    (generate_code p = reverse_string_code ↔
      ∃ line ∈ splitLines (pyLower p.data), ∃ pre mid w suf,
        (w = chaineAcc ∨ w = chainePlain) ∧
        line = pre ++ invWord ++ mid ++ w ++ suf) ∧
    ((¬ ∃ line ∈ splitLines (pyLower p.data), ∃ pre mid w suf,
        (w = chaineAcc ∨ w = chainePlain) ∧
        line = pre ++ invWord ++ mid ++ w ++ suf) →
      generate_code p = process_data_code) := by
  have hneq : reverse_string_code ≠ process_data_code := by decide
  have hiff : promptMatches p = true ↔
      ∃ line ∈ splitLines (pyLower p.data), ∃ pre mid w suf,
        (w = chaineAcc ∨ w = chainePlain) ∧
        line = pre ++ invWord ++ mid ++ w ++ suf := by
    unfold promptMatches
    rw [List.any_eq_true]
    constructor
    · rintro ⟨line, hml, hli⟩
      exact ⟨line, hml, (lineIntent_iff line).mp hli⟩
    · rintro ⟨line, hml, hdec⟩
      exact ⟨line, hml, (lineIntent_iff line).mpr hdec⟩
  constructor
  · constructor
    · intro h
      by_cases hm : promptMatches p
      · exact hiff.mp hm
      · rw [generate_code, if_neg (by simp [hm])] at h
        exact absurd h.symm hneq
    · intro hex
      rw [generate_code, if_pos (hiff.mpr hex)]
  · intro hn
    have hm : promptMatches p = false := by
      cases hpm : promptMatches p with
      | false => rfl
      | true => exact absurd (hiff.mp hpm) hn
    rw [generate_code, if_neg (by simp [hm])]

theorem generator_pattern_match_witness :
    generate_code "Crée une fonction Python qui INVERSE une chaîne sans utiliser [::-1]" =
      reverse_string_code ∧
    generate_code "Calcule la factorielle de n" = process_data_code := by
  constructor
  · exact (generator_pattern_match _).1.mpr
      ⟨"crée une fonction python qui inverse une chaîne sans utiliser [::-1]".data,
        by decide,
        "crée une fonction python qui ".data, " une ".data, chaineAcc,
        " sans utiliser [::-1]".data, Or.inl rfl, by decide⟩
  · refine (generator_pattern_match _).2 ?_
    rintro ⟨line, hml, pre, mid, w, suf, hw, heq⟩
    have h1 : lineIntent line = true :=
      (lineIntent_iff line).mpr ⟨pre, mid, w, suf, hw, heq⟩
    have hsp : splitLines (pyLower "Calcule la factorielle de n".data) =
        ["calcule la factorielle de n".data] := by decide
    rw [hsp, List.mem_singleton] at hml
    rw [hml] at h1
    exact absurd h1 (by decide)

/-- **C6** (Validator wildcard-import check, divergence): the line
`from os import *` is, ignoring leading whitespace, a wildcard import
statement — the only wildcard import form Python's grammar admits — yet the
validator's pattern `^\s*import\s+\*` does not match it, so `_validate_code`
reports no discouraged-wildcard-import issue and even deems the snippet
fully valid.  (A bare `import *` is not valid Python, so on parseable code
the check can only ever fire on look-alike text such as the contents of
multi-line string literals.) -/
theorem wildcard_import_not_flagged :
    specAnyWildcardImportLine "from os import *" = true ∧
    wildcardSearch "from os import *".data = false ∧
    validate_code (Except.ok ⟨none, [PyStmt.other []]⟩) "from os import *" =
      (true, []) :=
  ⟨by decide, by decide, by decide⟩

end MultiCoder
